import Mathlib

/-!
Shallow embedding of the samira-rs client library (src/platform.rs, src/region.rs,
src/riot_api.rs, src/utils_api.rs, src/filters/summoner_filter.rs, src/models/*).

Modelling conventions:
  * JSON values (ureq::serde_json::Value) are the inductive `Json`.  JSON numbers are
    carried exactly as rationals; the library performs no floating-point arithmetic
    (f64 fields are only deserialized and compared for equality), so the exact numeric
    payload is an adequate model of the number stored in a record field.
  * The network is a deterministic function `Http : Request → FetchResult`.  A `Request`
    records the URL and the optional X-Riot-Token header, which is all the code ever
    sets.  `FetchResult.transportError` covers a network failure or a non-2xx status
    (both make `ureq::...::call()?` return Err); `FetchResult.invalidJson` is a 2xx
    response whose body is not syntactically valid JSON (making `into_json()?` return
    Err); `FetchResult.body j` is a 2xx response parsed into the JSON value `j`.
  * A Rust computation that may return `Result::Err`, or panic via `expect`/`unwrap`,
    is an `Outcome`: `.ok` for the happy path, `.err` for an Err propagated by `?`,
    `.panicked msg` for a panic carrying the `expect` message ("unwrap" for a bare
    `unwrap()` on None/Err).  Public wrappers translate `.err` into the absent value
    and propagate panics, exactly as in the source.
  * Objects of `serde_json` are maps; we represent them as association lists whose
    order is the iteration order of the underlying map.  `Map::get` is first-match
    lookup, `Map::values()` is the list of second components.
  * `serde_json::from_value::<T>` for the derived record types is modelled field by
    field: every declared field must be present (under its Rust name or its
    `#[serde(alias)]` name) with a value of the right shape, otherwise the decode
    fails; `i32`/`i64` fields require an integral number in range, `f64` fields accept
    any number, `Option` fields turn `null` into `None`.
-/

/-- ureq::serde_json::Value. -/
inductive Json where
  | null : Json
  | bool (b : Bool) : Json
  | num (q : ℚ) : Json
  | str (s : String) : Json
  | arr (elems : List Json) : Json
  | obj (fields : List (String × Json)) : Json

/-- Value::as_str. -/
def Json.as_str : Json → Option String
  | .str s => some s
  | _ => none

/-- Value::as_array. -/
def Json.as_array : Json → Option (List Json)
  | .arr elems => some elems
  | _ => none

/-- Value::as_object (the object viewed as its ordered field list). -/
def Json.as_object : Json → Option (List (String × Json))
  | .obj fields => some fields
  | _ => none

/-- Map::get on a serde_json object: first binding of the key. -/
def objGet (fields : List (String × Json)) (key : String) : Option Json :=
  (fields.find? (fun p => p.1 == key)).map (fun p => p.2)

/-- Map::values() on a serde_json object. -/
def objValues (fields : List (String × Json)) : List Json :=
  fields.map (fun p => p.2)

/-- Value::String(s) == v, the PartialEq used by Vec::contains in
is_version_available / is_language_available. -/
def jsonIsString (s : String) : Json → Bool
  | .str t => t == s
  | _ => false

/-- Outcome of a Rust computation: Ok value, Err propagated by the ? operator,
or a panic (expect / unwrap) with its message. -/
inductive Outcome (α : Type) where
  | ok (a : α) : Outcome α
  | err : Outcome α
  | panicked (msg : String) : Outcome α
deriving DecidableEq

/-- One HTTP GET request: the URL and the optional X-Riot-Token header. -/
structure Request where
  url : String
  token : Option String
deriving DecidableEq

/-- What the network does with one request.  transportError: connection failure or
non-2xx status (call()? fails).  invalidJson: 2xx but the body is not valid JSON
(into_json()? fails).  body: 2xx with the parsed JSON value. -/
inductive FetchResult where
  | transportError : FetchResult
  | invalidJson : FetchResult
  | body (j : Json) : FetchResult

/-- The state of the network during one library call. -/
abbrev Http := Request → FetchResult

/-- ureq::get(url) [.set("X-Riot-Token", token)] .call()?.into_json()? -/
def fetchJson (net : Http) (req : Request) : Outcome Json :=
  match net req with
  | .transportError => .err
  | .invalidJson => .err
  | .body j => .ok j

/-! ## serde deserialization primitives -/

/-- serde_json::from_value into String. -/
def decStr : Json → Option String
  | .str s => some s
  | _ => none

/-- serde_json::from_value into bool. -/
def decBool : Json → Option Bool
  | .bool b => some b
  | _ => none

/-- serde_json::from_value into i32: an integral number in i32 range. -/
def decI32 : Json → Option Int
  | .num q => if q.den = 1 ∧ -(2 ^ 31) ≤ q.num ∧ q.num < 2 ^ 31 then some q.num else none
  | _ => none

/-- serde_json::from_value into i64: an integral number in i64 range. -/
def decI64 : Json → Option Int
  | .num q => if q.den = 1 ∧ -(2 ^ 63) ≤ q.num ∧ q.num < 2 ^ 63 then some q.num else none
  | _ => none

/-- serde_json::from_value into f64: any JSON number (payload kept exactly; the
library never computes with these). -/
def decF64 : Json → Option ℚ
  | .num q => some q
  | _ => none

/-- serde_json::from_value into Vec of T. -/
def decList (f : Json → Option α) : Json → Option (List α)
  | .arr elems => elems.mapM f
  | _ => none

/-- serde_json::from_value into Option of T: null becomes None. -/
def decOpt (f : Json → Option α) : Json → Option (Option α)
  | .null => some none
  | j => (f j).map some

/-- Required struct field: present under its Rust name. -/
def reqField (fields : List (String × Json)) (key : String) (f : Json → Option α) :
    Option α :=
  (objGet fields key).bind f

/-- Required struct field with a serde alias: present under the Rust name or the alias. -/
def reqFieldA (fields : List (String × Json)) (key altKey : String)
    (f : Json → Option α) : Option α :=
  ((objGet fields key).orElse (fun _ => objGet fields altKey)).bind f

/-! ## models/rune_model.rs -/

/-- models/rune_model.rs RuneData. -/
structure RuneData where
  id : Int
  key : String
  icon : String
  name : String
  short_desc : String
  long_desc : String
deriving DecidableEq

/-- models/rune_model.rs RuneSlot. -/
structure RuneSlot where
  runes : List RuneData
deriving DecidableEq

/-- models/rune_model.rs Rune. -/
structure Rune where
  id : Int
  key : String
  icon : String
  name : String
  slots : List RuneSlot
deriving DecidableEq

/-- Derived serde Deserialize for RuneData (alias shortDesc / longDesc). -/
def runeDataFromJson (j : Json) : Option RuneData := do
  let fields ← j.as_object
  let id ← reqField fields "id" decI32
  let key ← reqField fields "key" decStr
  let icon ← reqField fields "icon" decStr
  let name ← reqField fields "name" decStr
  let short_desc ← reqFieldA fields "short_desc" "shortDesc" decStr
  let long_desc ← reqFieldA fields "long_desc" "longDesc" decStr
  pure ⟨id, key, icon, name, short_desc, long_desc⟩

/-- Derived serde Deserialize for RuneSlot. -/
def runeSlotFromJson (j : Json) : Option RuneSlot := do
  let fields ← j.as_object
  let runes ← reqField fields "runes" (decList runeDataFromJson)
  pure ⟨runes⟩

/-- Derived serde Deserialize for Rune. -/
def runeFromJson (j : Json) : Option Rune := do
  let fields ← j.as_object
  let id ← reqField fields "id" decI32
  let key ← reqField fields "key" decStr
  let icon ← reqField fields "icon" decStr
  let name ← reqField fields "name" decStr
  let slots ← reqField fields "slots" (decList runeSlotFromJson)
  pure ⟨id, key, icon, name, slots⟩

/-! ## utils_api.rs URLs and requests -/

/-- const SERVER of utils_api.rs. -/
def SERVER : String := "https://ddragon.leagueoflegends.com"

/-- URL of the championFull.json document. -/
def championFullUrl (version language : String) : String :=
  SERVER ++ "/cdn/" ++ version ++ "/data/" ++ language ++ "/championFull.json"

/-- URL of the runesReforged.json document. -/
def runesReforgedUrl (version language : String) : String :=
  SERVER ++ "/cdn/" ++ version ++ "/data/" ++ language ++ "/runesReforged.json"

/-- URL of the versions.json manifest. -/
def versionsUrl : String := SERVER ++ "/api/versions.json"

/-- URL of the languages.json manifest. -/
def languagesUrl : String := SERVER ++ "/cdn/languages.json"

/-- Data Dragon requests carry no token header. -/
def championFullRequest (version language : String) : Request :=
  ⟨championFullUrl version language, none⟩

/-- Request for runesReforged.json. -/
def runesReforgedRequest (version language : String) : Request :=
  ⟨runesReforgedUrl version language, none⟩

/-- Request for versions.json. -/
def versionsRequest : Request := ⟨versionsUrl, none⟩

/-- Request for languages.json. -/
def languagesRequest : Request := ⟨languagesUrl, none⟩

/-! ## utils_api.rs private functions (runes and manifests) -/

/-- The loop of utils_api::get_all_runes / get_all_champions:
serde_json::from_value(val.clone()).unwrap() pushed for each element, so the first
element that fails to deserialize panics (fail-fast). -/
def decodeEach (f : Json → Option α) : List Json → Outcome (List α)
  | [] => .ok []
  | v :: vs =>
    match f v with
    | none => .panicked "unwrap"
    | some a =>
      match decodeEach f vs with
      | .ok rest => .ok (a :: rest)
      | r => r

namespace utils_api

/-- utils_api.rs fn get_all_runes. -/
def get_all_runes (net : Http) (version language : String) : Outcome (List Rune) :=
  match fetchJson net (runesReforgedRequest version language) with
  | .err => .err
  | .panicked m => .panicked m
  | .ok response =>
    match response.as_array with
    | none => .panicked "not an array"
    | some rune => decodeEach runeFromJson rune

/-- The loop of utils_api::get_rune: for each element, read
val.as_object().expect(..).get("name").expect(..).as_str().expect(..), compare with
the requested name, and overwrite target on a match (no break). -/
def runeScan (name : String) : List Json → Option Json → Outcome (Option Json)
  | [], target => .ok target
  | v :: vs, target =>
    match v.as_object with
    | none => .panicked "not an object"
    | some o =>
      match objGet o "name" with
      | none => .panicked "name not found"
      | some nv =>
        match nv.as_str with
        | none => .panicked "not a string"
        | some s => runeScan name vs (if s == name then some v else target)

/-- utils_api.rs fn get_rune. -/
def get_rune (net : Http) (version language name : String) : Outcome Rune :=
  match fetchJson net (runesReforgedRequest version language) with
  | .err => .err
  | .panicked m => .panicked m
  | .ok response =>
    match response.as_array with
    | none => .panicked "not an array"
    | some rune =>
      match runeScan name rune none with
      | .panicked m => .panicked m
      | .err => .err
      | .ok none => .panicked "unwrap"
      | .ok (some target) =>
        match runeFromJson target with
        | none => .panicked "unwrap"
        | some r => .ok r

/-- utils_api.rs fn get_latest_version. -/
def get_latest_version (net : Http) : Outcome String :=
  match fetchJson net versionsRequest with
  | .err => .err
  | .panicked m => .panicked m
  | .ok response =>
    match response.as_array with
    | none => .panicked "not an array"
    | some l =>
      match l.head? with
      | none => .panicked "no latest version"
      | some v =>
        match v.as_str with
        | none => .panicked "not a string"
        | some s => .ok s

/-- utils_api.rs fn is_version_available. -/
def is_version_available (net : Http) (version : String) : Outcome Bool :=
  match fetchJson net versionsRequest with
  | .err => .err
  | .panicked m => .panicked m
  | .ok response =>
    match response.as_array with
    | none => .panicked "not an array"
    | some l => .ok (l.any (jsonIsString version))

/-- utils_api.rs fn is_language_available. -/
def is_language_available (net : Http) (language : String) : Outcome Bool :=
  match fetchJson net languagesRequest with
  | .err => .err
  | .panicked m => .panicked m
  | .ok response =>
    match response.as_array with
    | none => .panicked "not an array"
    | some l => .ok (l.any (jsonIsString language))

end utils_api

/-! ## struct UtilsApi -/

/-- utils_api.rs struct UtilsApi. -/
structure UtilsApi where
  version : String
  language : String
deriving DecidableEq

/-- impl Default for UtilsApi: the hardcoded version and language, no network probe
(the definition takes no Http argument at all). -/
def UtilsApi.default : UtilsApi := ⟨"12.12.1", "en_US"⟩

/-- UtilsApi::latest.  Rust evaluates is_language_available first, then
get_latest_version (each may panic), then tests
version.is_ok() && language_result.is_ok() && language_result.unwrap() == true. -/
def UtilsApi.latest (net : Http) (language : String) : Outcome (Option UtilsApi) :=
  match utils_api.is_language_available net language with
  | .panicked m => .panicked m
  | langRes =>
    match utils_api.get_latest_version net with
    | .panicked m => .panicked m
    | verRes =>
      match verRes, langRes with
      | .ok v, .ok true => .ok (some ⟨v, language⟩)
      | _, _ => .ok none

/-- UtilsApi::new.  Rust evaluates is_version_available first, then
is_language_available, then tests both results for Ok(true). -/
def UtilsApi.new (net : Http) (version language : String) : Outcome (Option UtilsApi) :=
  match utils_api.is_version_available net version with
  | .panicked m => .panicked m
  | verRes =>
    match utils_api.is_language_available net language with
    | .panicked m => .panicked m
    | langRes =>
      match langRes, verRes with
      | .ok true, .ok true => .ok (some ⟨version, language⟩)
      | _, _ => .ok none

/-- UtilsApi::get_rune (public): Ok becomes Some, Err becomes None, a panic
propagates. -/
def UtilsApi.get_rune (api : UtilsApi) (net : Http) (name : String) :
    Outcome (Option Rune) :=
  match utils_api.get_rune net api.version api.language name with
  | .ok r => .ok (some r)
  | .err => .ok none
  | .panicked m => .panicked m

/-- UtilsApi::get_all_runes (public): Ok is returned, Err becomes Vec::new(),
a panic propagates. -/
def UtilsApi.get_all_runes (api : UtilsApi) (net : Http) : Outcome (List Rune) :=
  match utils_api.get_all_runes net api.version api.language with
  | .ok rs => .ok rs
  | .err => .ok []
  | .panicked m => .panicked m

/-! ## models/champion_model.rs -/

/-- models/champion_model.rs Image. -/
structure Image where
  full : String
  sprite : String
  group : String
  x : Int
  y : Int
  w : Int
  h : Int
deriving DecidableEq

/-- models/champion_model.rs Passive. -/
structure Passive where
  name : String
  description : String
  image : Image
deriving DecidableEq

/-- models/champion_model.rs LevelTip. -/
structure LevelTip where
  label : List String
  effect : List String
deriving DecidableEq

/-- models/champion_model.rs Spell (f64 payloads kept as exact rationals). -/
structure Spell where
  id : String
  name : String
  description : String
  tooltip : String
  leveltip : LevelTip
  maxrank : Int
  cooldown : List ℚ
  cooldown_burn : String
  cost : List ℚ
  cost_burn : String
  effect : List (Option (List ℚ))
  effect_burn : List (Option String)
  cost_type : String
  maxammo : String
  range : List Int
  range_burn : String
  image : Image
  resource : String
deriving DecidableEq

/-- models/champion_model.rs Stats. -/
structure Stats where
  hp : ℚ
  hpperlevel : ℚ
  mp : ℚ
  mpperlevel : ℚ
  movespeed : ℚ
  armor : ℚ
  armorperlevel : ℚ
  spellblock : ℚ
  spellblockperlevel : ℚ
  attackrange : ℚ
  hpregen : ℚ
  hpregenperlevel : ℚ
  mpregen : ℚ
  mpregenperlevel : ℚ
  crit : ℚ
  critperlevel : ℚ
  attackdamage : ℚ
  attackdamageperlevel : ℚ
  attackspeedperlevel : ℚ
  attackspeed : ℚ
deriving DecidableEq

/-- models/champion_model.rs Info. -/
structure Info where
  attack : Int
  defense : Int
  magic : Int
  difficulty : Int
deriving DecidableEq

/-- models/champion_model.rs Skin. -/
structure Skin where
  id : String
  num : Int
  name : String
  chromas : Bool
deriving DecidableEq

/-- models/champion_model.rs Champion. -/
structure Champion where
  id : String
  key : String
  name : String
  title : String
  image : Image
  skins : List Skin
  lore : String
  blurb : String
  allytips : List String
  enemytips : List String
  tags : List String
  partype : String
  info : Info
  stats : Stats
  spells : List Spell
  passive : Passive
deriving DecidableEq

/-- Derived serde Deserialize for Image. -/
def imageFromJson (j : Json) : Option Image := do
  let fields ← j.as_object
  let full ← reqField fields "full" decStr
  let sprite ← reqField fields "sprite" decStr
  let group ← reqField fields "group" decStr
  let x ← reqField fields "x" decI32
  let y ← reqField fields "y" decI32
  let w ← reqField fields "w" decI32
  let h ← reqField fields "h" decI32
  pure ⟨full, sprite, group, x, y, w, h⟩

/-- Derived serde Deserialize for Passive. -/
def passiveFromJson (j : Json) : Option Passive := do
  let fields ← j.as_object
  let name ← reqField fields "name" decStr
  let description ← reqField fields "description" decStr
  let image ← reqField fields "image" imageFromJson
  pure ⟨name, description, image⟩

/-- Derived serde Deserialize for LevelTip. -/
def levelTipFromJson (j : Json) : Option LevelTip := do
  let fields ← j.as_object
  let label ← reqField fields "label" (decList decStr)
  let effect ← reqField fields "effect" (decList decStr)
  pure ⟨label, effect⟩

/-- First five Spell fields (split into groups only to keep each definition small;
the concatenation of the four groups is exactly the Rust field order). -/
def spellFieldsA (fields : List (String × Json)) :
    Option (String × String × String × String × LevelTip) := do
  let id ← reqField fields "id" decStr
  let name ← reqField fields "name" decStr
  let description ← reqField fields "description" decStr
  let tooltip ← reqField fields "tooltip" decStr
  let leveltip ← reqField fields "leveltip" levelTipFromJson
  pure (id, name, description, tooltip, leveltip)

/-- Spell fields maxrank through cost_burn (with the serde aliases). -/
def spellFieldsB (fields : List (String × Json)) :
    Option (Int × List ℚ × String × List ℚ × String) := do
  let maxrank ← reqField fields "maxrank" decI32
  let cooldown ← reqField fields "cooldown" (decList decF64)
  let cooldown_burn ← reqFieldA fields "cooldown_burn" "cooldownBurn" decStr
  let cost ← reqField fields "cost" (decList decF64)
  let cost_burn ← reqFieldA fields "cost_burn" "costBurn" decStr
  pure (maxrank, cooldown, cooldown_burn, cost, cost_burn)

/-- Spell fields effect through maxammo (with the serde aliases). -/
def spellFieldsC (fields : List (String × Json)) :
    Option (List (Option (List ℚ)) × List (Option String) × String × String) := do
  let effect ← reqField fields "effect" (decList (decOpt (decList decF64)))
  let effect_burn ← reqFieldA fields "effect_burn" "effectBurn" (decList (decOpt decStr))
  let cost_type ← reqFieldA fields "cost_type" "costType" decStr
  let maxammo ← reqField fields "maxammo" decStr
  pure (effect, effect_burn, cost_type, maxammo)

/-- Spell fields range through resource (with the serde alias rangeBurn). -/
def spellFieldsD (fields : List (String × Json)) :
    Option (List Int × String × Image × String) := do
  let range ← reqField fields "range" (decList decI64)
  let range_burn ← reqFieldA fields "range_burn" "rangeBurn" decStr
  let image ← reqField fields "image" imageFromJson
  let resource ← reqField fields "resource" decStr
  pure (range, range_burn, image, resource)

/-- Derived serde Deserialize for Spell (aliases cooldownBurn, costBurn, effectBurn,
costType, rangeBurn): every field required, assembled in declaration order. -/
def spellFromJson (j : Json) : Option Spell := do
  let fields ← j.as_object
  let (id, name, description, tooltip, leveltip) ← spellFieldsA fields
  let (maxrank, cooldown, cooldown_burn, cost, cost_burn) ← spellFieldsB fields
  let (effect, effect_burn, cost_type, maxammo) ← spellFieldsC fields
  let (range, range_burn, image, resource) ← spellFieldsD fields
  pure ⟨id, name, description, tooltip, leveltip, maxrank, cooldown, cooldown_burn,
    cost, cost_burn, effect, effect_burn, cost_type, maxammo, range, range_burn,
    image, resource⟩

/-- First five Stats fields (all f64; split into groups only to keep each
definition small, the concatenation is the Rust field order). -/
def statsFieldsA (fields : List (String × Json)) : Option (ℚ × ℚ × ℚ × ℚ × ℚ) := do
  let hp ← reqField fields "hp" decF64
  let hpperlevel ← reqField fields "hpperlevel" decF64
  let mp ← reqField fields "mp" decF64
  let mpperlevel ← reqField fields "mpperlevel" decF64
  let movespeed ← reqField fields "movespeed" decF64
  pure (hp, hpperlevel, mp, mpperlevel, movespeed)

/-- Stats fields armor through attackrange. -/
def statsFieldsB (fields : List (String × Json)) : Option (ℚ × ℚ × ℚ × ℚ × ℚ) := do
  let armor ← reqField fields "armor" decF64
  let armorperlevel ← reqField fields "armorperlevel" decF64
  let spellblock ← reqField fields "spellblock" decF64
  let spellblockperlevel ← reqField fields "spellblockperlevel" decF64
  let attackrange ← reqField fields "attackrange" decF64
  pure (armor, armorperlevel, spellblock, spellblockperlevel, attackrange)

/-- Stats fields hpregen through crit. -/
def statsFieldsC (fields : List (String × Json)) : Option (ℚ × ℚ × ℚ × ℚ × ℚ) := do
  let hpregen ← reqField fields "hpregen" decF64
  let hpregenperlevel ← reqField fields "hpregenperlevel" decF64
  let mpregen ← reqField fields "mpregen" decF64
  let mpregenperlevel ← reqField fields "mpregenperlevel" decF64
  let crit ← reqField fields "crit" decF64
  pure (hpregen, hpregenperlevel, mpregen, mpregenperlevel, crit)

/-- Stats fields critperlevel through attackspeed. -/
def statsFieldsD (fields : List (String × Json)) : Option (ℚ × ℚ × ℚ × ℚ × ℚ) := do
  let critperlevel ← reqField fields "critperlevel" decF64
  let attackdamage ← reqField fields "attackdamage" decF64
  let attackdamageperlevel ← reqField fields "attackdamageperlevel" decF64
  let attackspeedperlevel ← reqField fields "attackspeedperlevel" decF64
  let attackspeed ← reqField fields "attackspeed" decF64
  pure (critperlevel, attackdamage, attackdamageperlevel, attackspeedperlevel,
    attackspeed)

/-- Derived serde Deserialize for Stats: all twenty f64 fields required, assembled
in declaration order. -/
def statsFromJson (j : Json) : Option Stats := do
  let fields ← j.as_object
  let (hp, hpperlevel, mp, mpperlevel, movespeed) ← statsFieldsA fields
  let (armor, armorperlevel, spellblock, spellblockperlevel, attackrange) ←
    statsFieldsB fields
  let (hpregen, hpregenperlevel, mpregen, mpregenperlevel, crit) ← statsFieldsC fields
  let (critperlevel, attackdamage, attackdamageperlevel, attackspeedperlevel,
    attackspeed) ← statsFieldsD fields
  pure ⟨hp, hpperlevel, mp, mpperlevel, movespeed, armor, armorperlevel, spellblock,
    spellblockperlevel, attackrange, hpregen, hpregenperlevel, mpregen,
    mpregenperlevel, crit, critperlevel, attackdamage, attackdamageperlevel,
    attackspeedperlevel, attackspeed⟩

/-- Derived serde Deserialize for Info. -/
def infoFromJson (j : Json) : Option Info := do
  let fields ← j.as_object
  let attack ← reqField fields "attack" decI32
  let defense ← reqField fields "defense" decI32
  let magic ← reqField fields "magic" decI32
  let difficulty ← reqField fields "difficulty" decI32
  pure ⟨attack, defense, magic, difficulty⟩

/-- Derived serde Deserialize for Skin. -/
def skinFromJson (j : Json) : Option Skin := do
  let fields ← j.as_object
  let id ← reqField fields "id" decStr
  let num ← reqField fields "num" decI32
  let name ← reqField fields "name" decStr
  let chromas ← reqField fields "chromas" decBool
  pure ⟨id, num, name, chromas⟩

/-- First four Champion fields (split into groups only to keep each definition
small; the concatenation of the four groups is exactly the Rust field order). -/
def championFieldsA (fields : List (String × Json)) :
    Option (String × String × String × String) := do
  let id ← reqField fields "id" decStr
  let key ← reqField fields "key" decStr
  let name ← reqField fields "name" decStr
  let title ← reqField fields "title" decStr
  pure (id, key, name, title)

/-- Champion fields image through blurb. -/
def championFieldsB (fields : List (String × Json)) :
    Option (Image × List Skin × String × String) := do
  let image ← reqField fields "image" imageFromJson
  let skins ← reqField fields "skins" (decList skinFromJson)
  let lore ← reqField fields "lore" decStr
  let blurb ← reqField fields "blurb" decStr
  pure (image, skins, lore, blurb)

/-- Champion fields allytips through partype. -/
def championFieldsC (fields : List (String × Json)) :
    Option (List String × List String × List String × String) := do
  let allytips ← reqField fields "allytips" (decList decStr)
  let enemytips ← reqField fields "enemytips" (decList decStr)
  let tags ← reqField fields "tags" (decList decStr)
  let partype ← reqField fields "partype" decStr
  pure (allytips, enemytips, tags, partype)

/-- Champion fields info through passive. -/
def championFieldsD (fields : List (String × Json)) :
    Option (Info × Stats × List Spell × Passive) := do
  let info ← reqField fields "info" infoFromJson
  let stats ← reqField fields "stats" statsFromJson
  let spells ← reqField fields "spells" (decList spellFromJson)
  let passive ← reqField fields "passive" passiveFromJson
  pure (info, stats, spells, passive)

/-- Derived serde Deserialize for Champion: every field required, assembled in
declaration order. -/
def championFromJson (j : Json) : Option Champion := do
  let fields ← j.as_object
  let (id, key, name, title) ← championFieldsA fields
  let (image, skins, lore, blurb) ← championFieldsB fields
  let (allytips, enemytips, tags, partype) ← championFieldsC fields
  let (info, stats, spells, passive) ← championFieldsD fields
  pure ⟨id, key, name, title, image, skins, lore, blurb, allytips, enemytips, tags,
    partype, info, stats, spells, passive⟩

namespace utils_api

/-- utils_api.rs fn get_all_champions: fetch championFull.json, take the "data"
object (each step panics with the expect message on a shape mismatch), decode every
value in iteration order, unwrap each decode. -/
def get_all_champions (net : Http) (version language : String) :
    Outcome (List Champion) :=
  match fetchJson net (championFullRequest version language) with
  | .err => .err
  | .panicked m => .panicked m
  | .ok response =>
    match response.as_object with
    | none => .panicked "not an object"
    | some o =>
      match objGet o "data" with
      | none => .panicked "no data found"
      | some d =>
        match d.as_object with
        | none => .panicked "no champions found"
        | some champ => decodeEach championFromJson (objValues champ)

/-- utils_api.rs fn get_champion: fetch championFull.json, take data, look the name
up in the keyed collection (absence panics with "champion not found"), decode and
unwrap the single entry. -/
def get_champion (net : Http) (version language name : String) : Outcome Champion :=
  match fetchJson net (championFullRequest version language) with
  | .err => .err
  | .panicked m => .panicked m
  | .ok response =>
    match response.as_object with
    | none => .panicked "not an object"
    | some o =>
      match objGet o "data" with
      | none => .panicked "no data found"
      | some d =>
        match d.as_object with
        | none => .panicked "no champions found"
        | some champ =>
          match objGet champ name with
          | none => .panicked "champion not found"
          | some v =>
            match championFromJson v with
            | none => .panicked "unwrap"
            | some c => .ok c

end utils_api

/-- UtilsApi::get_all_champions (public): Ok is returned, Err becomes Vec::new(),
a panic propagates. -/
def UtilsApi.get_all_champions (api : UtilsApi) (net : Http) : Outcome (List Champion) :=
  match utils_api.get_all_champions net api.version api.language with
  | .ok cs => .ok cs
  | .err => .ok []
  | .panicked m => .panicked m

/-- UtilsApi::get_champion (public): Ok becomes Some, Err becomes None, a panic
propagates. -/
def UtilsApi.get_champion (api : UtilsApi) (net : Http) (name : String) :
    Outcome (Option Champion) :=
  match utils_api.get_champion net api.version api.language name with
  | .ok c => .ok (some c)
  | .err => .ok none
  | .panicked m => .panicked m

/-! ## platform.rs and region.rs -/

/-- platform.rs enum Platform (closed enumeration). -/
inductive Platform where
  | BR1 | EUN1 | EUW1 | JP1 | KR | LA1 | LA2 | NA1 | OC1 | TR1 | RU
deriving DecidableEq

/-- const PROTOCOL (identical in platform.rs and region.rs). -/
def PROTOCOL : String := "https"

/-- platform.rs fn get_platform_url: total match on the closed enumeration. -/
def get_platform_url (platform : Platform) : String :=
  PROTOCOL ++ "://" ++
    (match platform with
      | .BR1 => "br1"
      | .EUN1 => "eun1"
      | .EUW1 => "euw1"
      | .JP1 => "jp1"
      | .KR => "kr"
      | .LA1 => "la1"
      | .LA2 => "la2"
      | .NA1 => "na1"
      | .OC1 => "oc1"
      | .TR1 => "tr1"
      | .RU => "ru") ++
    ".api.riotgames.com"

/-- region.rs enum Region (closed enumeration). -/
inductive Region where
  | AMERICAS | ASIA | EUROPE | SEA
deriving DecidableEq

/-- region.rs fn get_region_url: total match on the closed enumeration. -/
def get_region_url (region : Region) : String :=
  PROTOCOL ++ "://" ++
    (match region with
      | .AMERICAS => "americas"
      | .ASIA => "asia"
      | .EUROPE => "europe"
      | .SEA => "sea") ++
    ".api.riotgames.com"

/-- The source text of each Platform variant name, as declared in platform.rs. -/
def Platform.variantName : Platform → String
  | .BR1 => "BR1"
  | .EUN1 => "EUN1"
  | .EUW1 => "EUW1"
  | .JP1 => "JP1"
  | .KR => "KR"
  | .LA1 => "LA1"
  | .LA2 => "LA2"
  | .NA1 => "NA1"
  | .OC1 => "OC1"
  | .TR1 => "TR1"
  | .RU => "RU"

/-- The source text of each Region variant name, as declared in region.rs. -/
def Region.variantName : Region → String
  | .AMERICAS => "AMERICAS"
  | .ASIA => "ASIA"
  | .EUROPE => "EUROPE"
  | .SEA => "SEA"

/-! ## models/summoner_model.rs and models/champion_info_model.rs -/

/-- models/summoner_model.rs Summoner. -/
structure Summoner where
  account_id : String
  profile_icon_id : Int
  revision_date : Int
  name : String
  id : String
  puuid : String
  summoner_level : Int
deriving DecidableEq

/-- Derived serde Deserialize for Summoner (aliases accountId, profileIconId,
revisionDate, summonerLevel). -/
def summonerFromJson (j : Json) : Option Summoner := do
  let fields ← j.as_object
  let account_id ← reqFieldA fields "account_id" "accountId" decStr
  let profile_icon_id ← reqFieldA fields "profile_icon_id" "profileIconId" decI32
  let revision_date ← reqFieldA fields "revision_date" "revisionDate" decI64
  let name ← reqField fields "name" decStr
  let id ← reqField fields "id" decStr
  let puuid ← reqField fields "puuid" decStr
  let summoner_level ← reqFieldA fields "summoner_level" "summonerLevel" decI64
  pure ⟨account_id, profile_icon_id, revision_date, name, id, puuid, summoner_level⟩

/-- models/champion_info_model.rs ChampionInfo. -/
structure ChampionInfo where
  max_new_player_level : Int
  free_champions_ids_for_new_players : List Int
  free_champion_ids : List Int
deriving DecidableEq

/-- Derived serde Deserialize for ChampionInfo (aliases maxNewPlayerLevel,
freeChampionIdsForNewPlayers, freeChampionIds). -/
def championInfoFromJson (j : Json) : Option ChampionInfo := do
  let fields ← j.as_object
  let max_new_player_level ← reqFieldA fields "max_new_player_level"
    "maxNewPlayerLevel" decI32
  let free_champions_ids_for_new_players ← reqFieldA fields
    "free_champions_ids_for_new_players" "freeChampionIdsForNewPlayers"
    (decList decI32)
  let free_champion_ids ← reqFieldA fields "free_champion_ids" "freeChampionIds"
    (decList decI32)
  pure ⟨max_new_player_level, free_champions_ids_for_new_players, free_champion_ids⟩

/-! ## filters/summoner_filter.rs -/

/-- filters/summoner_filter.rs SummonerFilter. -/
structure SummonerFilter where
  account_id : Option String
  name : Option String
  id : Option String
  puuid : Option String
deriving DecidableEq

/-! ## riot_api.rs -/

/-- Request of riot_api::get_champion_rotations (token in the X-Riot-Token header). -/
def rotationsRequest (token : String) (platform : Platform) : Request :=
  ⟨get_platform_url platform ++ "/lol/platform/v3/champion-rotations", some token⟩

/-- Request of riot_api::get_summoner. -/
def summonerRequest (token : String) (platform : Platform)
    (encrypted_summoner_id : String) : Request :=
  ⟨get_platform_url platform ++ "/lol/summoner/v4/summoners/" ++
    encrypted_summoner_id, some token⟩

/-- Request of riot_api::get_summoner_by_account. -/
def summonerByAccountRequest (token : String) (platform : Platform)
    (encrypted_account_id : String) : Request :=
  ⟨get_platform_url platform ++ "/lol/summoner/v4/summoners/by-account/" ++
    encrypted_account_id, some token⟩

/-- Request of riot_api::get_summoner_by_name. -/
def summonerByNameRequest (token : String) (platform : Platform)
    (summoner_name : String) : Request :=
  ⟨get_platform_url platform ++ "/lol/summoner/v4/summoners/by-name/" ++
    summoner_name, some token⟩

/-- Request of riot_api::get_summoner_by_puuid. -/
def summonerByPuuidRequest (token : String) (platform : Platform) (puuid : String) :
    Request :=
  ⟨get_platform_url platform ++ "/lol/summoner/v4/summoners/by-puuid/" ++ puuid,
    some token⟩

/-- Request of riot_api::check_token: the NA1 platform-status endpoint. -/
def platformDataRequest (token : String) : Request :=
  ⟨get_platform_url Platform.NA1 ++ "/lol/status/v4/platform-data", some token⟩

namespace riot_api

/-- riot_api.rs fn get_champion_rotations: one GET, decode into ChampionInfo,
unwrap the decode (a shape mismatch panics). -/
def get_champion_rotations (token : String) (net : Http) (platform : Platform) :
    Outcome ChampionInfo :=
  match fetchJson net (rotationsRequest token platform) with
  | .err => .err
  | .panicked m => .panicked m
  | .ok response =>
    match championInfoFromJson response with
    | none => .panicked "unwrap"
    | some info => .ok info

/-- riot_api.rs fn get_summoner. -/
def get_summoner (token : String) (net : Http) (platform : Platform)
    (encrypted_summoner_id : String) : Outcome Summoner :=
  match fetchJson net (summonerRequest token platform encrypted_summoner_id) with
  | .err => .err
  | .panicked m => .panicked m
  | .ok response =>
    match summonerFromJson response with
    | none => .panicked "unwrap"
    | some s => .ok s

/-- riot_api.rs fn get_summoner_by_account. -/
def get_summoner_by_account (token : String) (net : Http) (platform : Platform)
    (encrypted_account_id : String) : Outcome Summoner :=
  match fetchJson net (summonerByAccountRequest token platform encrypted_account_id) with
  | .err => .err
  | .panicked m => .panicked m
  | .ok response =>
    match summonerFromJson response with
    | none => .panicked "unwrap"
    | some s => .ok s

/-- riot_api.rs fn get_summoner_by_name. -/
def get_summoner_by_name (token : String) (net : Http) (platform : Platform)
    (summoner_name : String) : Outcome Summoner :=
  match fetchJson net (summonerByNameRequest token platform summoner_name) with
  | .err => .err
  | .panicked m => .panicked m
  | .ok response =>
    match summonerFromJson response with
    | none => .panicked "unwrap"
    | some s => .ok s

/-- riot_api.rs fn get_summoner_by_puuid. -/
def get_summoner_by_puuid (token : String) (net : Http) (platform : Platform)
    (puuid : String) : Outcome Summoner :=
  match fetchJson net (summonerByPuuidRequest token platform puuid) with
  | .err => .err
  | .panicked m => .panicked m
  | .ok response =>
    match summonerFromJson response with
    | none => .panicked "unwrap"
    | some s => .ok s

/-- riot_api.rs fn check_token: one GET against the NA1 platform-data endpoint;
the body is never parsed, so any 2xx response gives Ok(true) and a transport
failure or non-2xx status propagates as Err. -/
def check_token (net : Http) (token : String) : Outcome Bool :=
  match net (platformDataRequest token) with
  | .transportError => .err
  | .invalidJson => .ok true
  | .body _ => .ok true

end riot_api

/-- riot_api.rs struct RiotApi. -/
structure RiotApi where
  token : String
deriving DecidableEq

/-- RiotApi::new: validating constructor, Some only when check_token gives Ok(true)
(check_token never panics, so plain Option is the faithful return shape). -/
def RiotApi.new (net : Http) (token : String) : Option RiotApi :=
  match riot_api.check_token net token with
  | .ok true => some ⟨token⟩
  | _ => none

/-- RiotApi::new_unchecked: stores the token without any probe. -/
def RiotApi.new_unchecked (token : String) : RiotApi := ⟨token⟩

/-- RiotApi::get_champion_rotations (public): Ok becomes Some, Err becomes None,
a panic propagates. -/
def RiotApi.get_champion_rotations (api : RiotApi) (net : Http)
    (platform : Platform) : Outcome (Option ChampionInfo) :=
  match riot_api.get_champion_rotations api.token net platform with
  | .ok info => .ok (some info)
  | .err => .ok none
  | .panicked m => .panicked m

/-- RiotApi::get_summoner_by_puuid (public). -/
def RiotApi.get_summoner_by_puuid (api : RiotApi) (net : Http) (platform : Platform)
    (puuid : String) : Outcome (Option Summoner) :=
  match riot_api.get_summoner_by_puuid api.token net platform puuid with
  | .ok s => .ok (some s)
  | .err => .ok none
  | .panicked m => .panicked m

/-- RiotApi::get_summoner_by_name (public). -/
def RiotApi.get_summoner_by_name (api : RiotApi) (net : Http) (platform : Platform)
    (summoner_name : String) : Outcome (Option Summoner) :=
  match riot_api.get_summoner_by_name api.token net platform summoner_name with
  | .ok s => .ok (some s)
  | .err => .ok none
  | .panicked m => .panicked m

/-- RiotApi::get_summoner_by_account (public). -/
def RiotApi.get_summoner_by_account (api : RiotApi) (net : Http)
    (platform : Platform) (encrypted_account_id : String) : Outcome (Option Summoner) :=
  match riot_api.get_summoner_by_account api.token net platform encrypted_account_id with
  | .ok s => .ok (some s)
  | .err => .ok none
  | .panicked m => .panicked m

/-- RiotApi::get_summoner (public, lookup by encrypted summoner id). -/
def RiotApi.get_summoner (api : RiotApi) (net : Http) (platform : Platform)
    (encrypted_summoner_id : String) : Outcome (Option Summoner) :=
  match riot_api.get_summoner api.token net platform encrypted_summoner_id with
  | .ok s => .ok (some s)
  | .err => .ok none
  | .panicked m => .panicked m

/-- One trial of the filter fallback chain: a field that is None is skipped, a
supplied field is looked up; Some wins outright, None falls through to the next
trial, a panic propagates. -/
def tryChain : List (Option String × (String → Outcome (Option Summoner))) →
    Outcome (Option Summoner)
  | [] => .ok none
  | (none, _) :: rest => tryChain rest
  | (some v, lookup) :: rest =>
    match lookup v with
    | .ok (some s) => .ok (some s)
    | .panicked m => .panicked m
    | _ => tryChain rest

/-- Modelled from the spec: the repository declares SummonerFilter
(filters/summoner_filter.rs) but the driver that consumes it is not in src/.
Spec 4.1: when a filter carries several identifying fields, try them in the fixed
priority order account identifier, then display name, then internal id, then puuid,
attempting the next only if the current one fails, and report "not found" only once
every supplied field has been exhausted; the first field that yields a successful
response wins outright. -/
def RiotApi.get_summoner_by_filter (api : RiotApi) (net : Http) (platform : Platform)
    (filter : SummonerFilter) : Outcome (Option Summoner) :=
  tryChain
    [(filter.account_id, fun v => api.get_summoner_by_account net platform v),
     (filter.name, fun v => api.get_summoner_by_name net platform v),
     (filter.id, fun v => api.get_summoner net platform v),
     (filter.puuid, fun v => api.get_summoner_by_puuid net platform v)]

/-! ## Derived notions used by the specification statements -/

/-- The name a get_rune scan reads from one list element:
val.as_object()?.get("name")?.as_str(). -/
def readName (v : Json) : Option String :=
  (v.as_object.bind (fun o => objGet o "name")).bind Json.as_str

/-- Lowercasing a string, character by character (String.toLower of the source
spelled on the character list so that the kernel can evaluate it). -/
def lowercase (s : String) : String := String.mk (s.data.map Char.toLower)

/-! ## Concrete fixtures for witnesses and counterexamples -/

/-- A rune document entry with the given id and name and otherwise fixed fields. -/
def runeEntryJson (id : ℚ) (nm : String) : Json :=
  .obj [("id", .num id), ("key", .str "k"), ("icon", .str "i"),
        ("name", .str nm), ("slots", .arr [])]

/-- The Rune record that runeEntryJson id nm deserializes to. -/
def runeEntry (id : Int) (nm : String) : Rune := ⟨id, "k", "i", nm, []⟩

/-- A network serving a runes document with two distinct entries of the same name. -/
def dupRunesNet : Http := fun r =>
  if r = runesReforgedRequest "v" "l" then
    .body (.arr [runeEntryJson 1 "X", runeEntryJson 2 "X"])
  else .transportError

/-- A network serving a well-formed but empty champion catalog and an empty runes
list. -/
def emptyCatalogNet : Http := fun r =>
  if r = championFullRequest "v" "l" then .body (.obj [("data", .obj [])])
  else if r = runesReforgedRequest "v" "l" then .body (.arr [])
  else .transportError

/-- A network answering every request with the JSON body null (valid JSON, wrong
shape for every record type). -/
def nullBodyNet : Http := fun _ => .body .null

/-- A network where every single entry of both catalogs is malformed (null). -/
def badEntryNet : Http := fun r =>
  if r = championFullRequest "v" "l" then .body (.obj [("data", .obj [("A", .null)])])
  else if r = runesReforgedRequest "v" "l" then .body (.arr [.null])
  else .transportError

/-- A summoner document as served by the live API (upstream camelCase keys). -/
def summonerDoc : Json :=
  .obj [("accountId", .str "acc-1"), ("profileIconId", .num 10),
        ("revisionDate", .num 1000), ("name", .str "RqndomHax"),
        ("id", .str "id-1"), ("puuid", .str "pu-1"), ("summonerLevel", .num 30)]

/-- The Summoner record summonerDoc deserializes to. -/
def summonerRec : Summoner := ⟨"acc-1", 10, 1000, "RqndomHax", "id-1", "pu-1", 30⟩

/-- A network where the by-name lookup for RqndomHax succeeds and every other
request (in particular the by-account lookup for the invalid id) fails at
transport level. -/
def chainNet : Http := fun r =>
  if r = summonerByNameRequest "tok" Platform.EUW1 "RqndomHax" then .body summonerDoc
  else .transportError

/-- The filter of the fallback scenario: an invalid account id together with a
valid display name. -/
def chainFilter : SummonerFilter := ⟨some "bad-account", some "RqndomHax", none, none⟩

/-- A network serving the version and language manifests only. -/
def manifestNet : Http := fun r =>
  if r = versionsRequest then .body (.arr [.str "12.12.1", .str "12.12.0"])
  else if r = languagesRequest then .body (.arr [.str "en_US", .str "fr_FR"])
  else .transportError

/-- An image block of the champion document. -/
def imageDoc : Json :=
  .obj [("full", .str "Samira.png"), ("sprite", .str "champion5.png"),
        ("group", .str "champion"), ("x", .num 0), ("y", .num 0),
        ("w", .num 48), ("h", .num 48)]

/-- The Image record imageDoc deserializes to. -/
def imageRec : Image := ⟨"Samira.png", "champion5.png", "champion", 0, 0, 48, 48⟩

/-- A full champion entry (empty skin, tip, tag and spell lists, which the derived
deserializer accepts). -/
def samiraDoc : Json :=
  .obj [("id", .str "Samira"), ("key", .str "360"), ("name", .str "Samira"),
        ("title", .str "the Desert Rose"), ("image", imageDoc), ("skins", .arr []),
        ("lore", .str "lore"), ("blurb", .str "blurb"), ("allytips", .arr []),
        ("enemytips", .arr []), ("tags", .arr []), ("partype", .str "Mana"),
        ("info", .obj [("attack", .num 8), ("defense", .num 5), ("magic", .num 3),
          ("difficulty", .num 4)]),
        ("stats", .obj [("hp", .num 600), ("hpperlevel", .num 108),
          ("mp", .num 348), ("mpperlevel", .num 38), ("movespeed", .num 335),
          ("armor", .num 26), ("armorperlevel", .num 3), ("spellblock", .num 30),
          ("spellblockperlevel", .num 1), ("attackrange", .num 500),
          ("hpregen", .num 3), ("hpregenperlevel", .num 1), ("mpregen", .num 8),
          ("mpregenperlevel", .num 1), ("crit", .num 0), ("critperlevel", .num 0),
          ("attackdamage", .num 57), ("attackdamageperlevel", .num 3),
          ("attackspeedperlevel", .num 3), ("attackspeed", .num 1)]),
        ("spells", .arr []),
        ("passive", .obj [("name", .str "Daredevil Impulse"),
          ("description", .str "desc"), ("image", imageDoc)])]

/-- The Champion record samiraDoc deserializes to. -/
def samiraRec : Champion :=
  ⟨"Samira", "360", "Samira", "the Desert Rose", imageRec, [], "lore", "blurb",
    [], [], [], "Mana", ⟨8, 5, 3, 4⟩,
    ⟨600, 108, 348, 38, 335, 26, 3, 30, 1, 500, 3, 1, 8, 1, 0, 0, 57, 3, 3, 1⟩,
    [], ⟨"Daredevil Impulse", "desc", imageRec⟩⟩

/-- A network serving a champion catalog whose data object has the single entry
Samira. -/
def champNet : Http := fun r =>
  if r = championFullRequest "12.12.1" "en_US" then
    .body (.obj [("type", .str "champion"), ("format", .str "standAloneComplex"),
      ("version", .str "12.12.1"), ("data", .obj [("Samira", samiraDoc)])])
  else .transportError

/-! ## General lemmas about the embedding -/

/-- A request that does not produce a parsed body makes fetchJson return Err. -/
theorem fetchJson_err_of_not_body (net : Http) (req : Request)
    (h : ∀ j, net req ≠ .body j) : fetchJson net req = .err := by
  unfold fetchJson
  cases hn : net req with
  | transportError => rfl
  | invalidJson => rfl
  | body j => exact absurd hn (h j)

/-- A value found under a key of an object is among the object values. -/
theorem mem_objValues_of_objGet {fields : List (String × Json)} {key : String}
    {v : Json} (h : objGet fields key = some v) : v ∈ objValues fields := by
  unfold objGet at h
  cases hf : fields.find? (fun p => p.1 == key) with
  | none => rw [hf] at h; cases h
  | some p =>
    rw [hf] at h
    simp only [Option.map_some'] at h
    cases h
    exact List.mem_map_of_mem _ (List.mem_of_find?_eq_some hf)

/-- If the catalog loop succeeds, every listed document value deserialized and its
record is in the returned catalog. -/
theorem decodeEach_ok_mem {α : Type} {f : Json → Option α} :
    ∀ {vals : List Json} {res : List α}, decodeEach f vals = .ok res →
      ∀ {v : Json}, v ∈ vals → ∃ a, f v = some a ∧ a ∈ res := by
  intro vals
  induction vals with
  | nil => intro res _ v hv; cases hv
  | cons w ws ih =>
    intro res hres v hv
    unfold decodeEach at hres
    cases hfw : f w with
    | none => rw [hfw] at hres; cases hres
    | some a =>
      rw [hfw] at hres
      cases hrec : decodeEach f ws with
      | ok rest =>
        rw [hrec] at hres
        cases hres
        cases hv with
        | head => exact ⟨a, hfw, List.mem_cons_self a rest⟩
        | tail _ htail =>
          obtain ⟨b, hb, hbmem⟩ := ih hrec htail
          exact ⟨b, hb, List.mem_cons_of_mem a hbmem⟩
      | err => rw [hrec] at hres; cases hres
      | panicked m => rw [hrec] at hres; cases hres

/-- If any listed document value fails to deserialize, the catalog loop panics. -/
theorem decodeEach_panicked_of_bad {α : Type} {f : Json → Option α} :
    ∀ {vals : List Json} {v : Json}, v ∈ vals → f v = none →
      decodeEach f vals = .panicked "unwrap" := by
  intro vals
  induction vals with
  | nil => intro v hv; cases hv
  | cons w ws ih =>
    intro v hv hbad
    unfold decodeEach
    cases hv with
    | head => rw [hbad]
    | tail _ htail =>
      cases hfw : f w with
      | none => rfl
      | some a => rw [ih htail hbad]

/-- Reading the name of a list element succeeds exactly when the element passes the
three expect steps of the get_rune loop; spelled out for rewriting. -/
theorem readName_eq_some {v : Json} {o : List (String × Json)} {nv : Json}
    {s : String} (ho : v.as_object = some o) (hnv : objGet o "name" = some nv)
    (hs : nv.as_str = some s) : readName v = some s := by
  unfold readName
  rw [ho, Option.some_bind, hnv, Option.some_bind, hs]

/-- The get_rune scan, on a list whose every element has a readable name, returns
the match found last in list order (the last element of the reversed list found
first), falling back to the accumulator. -/
theorem runeScan_eq_of_readable (name : String) :
    ∀ (l : List Json) (acc : Option Json), (∀ v ∈ l, (readName v).isSome) →
      utils_api.runeScan name l acc =
        .ok ((l.reverse.find? (fun v => readName v == some name)).or acc) := by
  intro l
  induction l with
  | nil => intro acc _; rfl
  | cons v vs ih =>
    intro acc hread
    have hv : (readName v).isSome := hread v (List.mem_cons_self v vs)
    obtain ⟨s, hs⟩ := Option.isSome_iff_exists.mp hv
    have hvs : ∀ w ∈ vs, (readName w).isSome :=
      fun w hw => hread w (List.mem_cons_of_mem v hw)
    unfold readName at hs
    cases ho : v.as_object with
    | none => rw [ho] at hs; cases hs
    | some o =>
      rw [ho, Option.some_bind] at hs
      cases hnv : objGet o "name" with
      | none => rw [hnv] at hs; cases hs
      | some nv =>
        rw [hnv, Option.some_bind] at hs
        have hstep : utils_api.runeScan name (v :: vs) acc =
            utils_api.runeScan name vs (if s == name then some v else acc) := by
          conv_lhs => unfold utils_api.runeScan
          simp only [ho, hnv, hs]
        rw [hstep, ih _ hvs]
        have hrn : readName v = some s := readName_eq_some ho hnv hs
        have hfind : List.find? (fun w => readName w == some name) [v] =
            if s == name then some v else none := by
          cases htest : s == name <;>
            simp [List.find?, hrn, htest]
        rw [List.reverse_cons, List.find?_append, Option.or_assoc, hfind]
        cases htest : s == name with
        | true => simp
        | false => simp

/-! ## Claim theorems -/

/-- C8: for every value of the closed Platform and Region enumerations, endpoint
resolution is a total function (a Lean function, hence defined on every
constructor, with no error case in its codomain) returning exactly the string
https (colon slash slash) identifier dot api.riotgames.com where the identifier is
the lowercase form of the variant name. -/
theorem endpoint_resolution_total_url_pattern :
    (∀ p : Platform, get_platform_url p =
      "https://" ++ lowercase p.variantName ++ ".api.riotgames.com") ∧
    (∀ r : Region, get_region_url r =
      "https://" ++ lowercase r.variantName ++ ".api.riotgames.com") := by
  constructor
  · intro p; cases p <;> rfl
  · intro r; cases r <;> rfl

/-- C10: UtilsApi has a Default implementation returning the hardcoded version
12.12.1 and language en_US; the definition takes no network argument, so no
manifest probe is involved; on a network where every request fails, the validating
latest constructor yields Ok(None), and unwrap_or_default of that None silently
produces the unvalidated frozen-version client. -/
theorem utils_api_default_frozen :
    UtilsApi.default = UtilsApi.mk "12.12.1" "en_US" ∧
    UtilsApi.latest (fun _ => .transportError) "en_US" = .ok none ∧
    Option.getD (none : Option UtilsApi) UtilsApi.default =
      UtilsApi.mk "12.12.1" "en_US" :=
  ⟨rfl, rfl, rfl⟩

/-- C6: RiotApi::new returns Some exactly when the single validation GET against
the NA1 platform-data endpoint does not fail at transport level (network error or
non-2xx status), returns None exactly on such a failure, and the constructed
client holds exactly the given token (never a partially-initialized client). -/
theorem riot_api_new_validation (net : Http) (token : String) :
    (RiotApi.new net token = some ⟨token⟩ ↔
      net (platformDataRequest token) ≠ .transportError) ∧
    (RiotApi.new net token = none ↔
      net (platformDataRequest token) = .transportError) := by
  unfold RiotApi.new riot_api.check_token
  cases hn : net (platformDataRequest token) with
  | transportError => simp
  | invalidJson => simp
  | body j => simp

/-- C2 counterexample: a runes document with two entries both named X, with ids 1
and 2; get_rune X returns the deserialization of the second entry, which differs
from the deserialization of the first, so the first occurrence does not win. -/
theorem get_rune_first_match_counterexample :
    (UtilsApi.mk "v" "l").get_rune dupRunesNet "X" = .ok (some (runeEntry 2 "X")) ∧
    runeFromJson (runeEntryJson 1 "X") = some (runeEntry 1 "X") ∧
    runeEntry 2 "X" ≠ runeEntry 1 "X" :=
  ⟨rfl, rfl, by decide⟩

/-- C2 amended: the get_rune scan overwrites its target on every match without
breaking, so when the fetched list contains at least one entry whose name equals
the queried name (and every entry has a readable name), get_rune returns the LAST
such entry in list order, not the first. -/
theorem get_rune_returns_last_match (net : Http) (api : UtilsApi) (name : String)
    (elems : List Json) (v : Json) (r : Rune)
    (hnet : net (runesReforgedRequest api.version api.language) = .body (.arr elems))
    (hread : ∀ w ∈ elems, (readName w).isSome)
    (hlast : elems.reverse.find? (fun w => readName w == some name) = some v)
    (hdec : runeFromJson v = some r) :
    api.get_rune net name = .ok (some r) := by
  unfold UtilsApi.get_rune utils_api.get_rune fetchJson
  rw [hnet]
  simp only [Json.as_array]
  rw [runeScan_eq_of_readable name elems none hread, hlast]
  simp only [Option.or]
  rw [hdec]

/-- C2 witness: on the duplicate-name document the amended theorem applies and
returns the entry with id 2, the last of the two matches. -/
theorem get_rune_returns_last_match_witness :
    (UtilsApi.mk "v" "l").get_rune dupRunesNet "X" = .ok (some (runeEntry 2 "X")) :=
  get_rune_returns_last_match dupRunesNet (UtilsApi.mk "v" "l") "X"
    [runeEntryJson 1 "X", runeEntryJson 2 "X"] (runeEntryJson 2 "X")
    (runeEntry 2 "X") rfl (by decide) (by rfl) (by rfl)

/-- A trial whose field is absent, or whose lookup reports not found, leaves the
chain to continue with the remaining trials. -/
theorem tryChain_skip {t : Option String × (String → Outcome (Option Summoner))}
    {rest : List (Option String × (String → Outcome (Option Summoner)))}
    (h : ∀ v, t.1 = some v → t.2 v = .ok none) :
    tryChain (t :: rest) = tryChain rest := by
  obtain ⟨ov, g⟩ := t
  cases ov with
  | none => rfl
  | some v =>
    have hv : g v = .ok none := h v rfl
    simp [tryChain, hv]

/-- A supplied trial whose lookup succeeds ends the chain with that result. -/
theorem tryChain_hit {v : String} {g : String → Outcome (Option Summoner)}
    {rest : List (Option String × (String → Outcome (Option Summoner)))}
    {s : Summoner} (h : g v = .ok (some s)) :
    tryChain ((some v, g) :: rest) = .ok (some s) := by
  simp [tryChain, h]

/-- C1: the filter-driven summoner lookup tries the supplied fields in the fixed
order account_id, name, id, puuid; a field is attempted only after every earlier
supplied field has failed; the first success wins outright; and None is reported
only once every supplied field has been tried and failed. -/
theorem summoner_filter_fallback_chain (api : RiotApi) (net : Http)
    (platform : Platform) (f : SummonerFilter) :
    (∀ a s, f.account_id = some a →
      api.get_summoner_by_account net platform a = .ok (some s) →
      api.get_summoner_by_filter net platform f = .ok (some s)) ∧
    (∀ n s, f.name = some n →
      (∀ a, f.account_id = some a →
        api.get_summoner_by_account net platform a = .ok none) →
      api.get_summoner_by_name net platform n = .ok (some s) →
      api.get_summoner_by_filter net platform f = .ok (some s)) ∧
    (∀ i s, f.id = some i →
      (∀ a, f.account_id = some a →
        api.get_summoner_by_account net platform a = .ok none) →
      (∀ n, f.name = some n →
        api.get_summoner_by_name net platform n = .ok none) →
      api.get_summoner net platform i = .ok (some s) →
      api.get_summoner_by_filter net platform f = .ok (some s)) ∧
    (∀ p s, f.puuid = some p →
      (∀ a, f.account_id = some a →
        api.get_summoner_by_account net platform a = .ok none) →
      (∀ n, f.name = some n →
        api.get_summoner_by_name net platform n = .ok none) →
      (∀ i, f.id = some i → api.get_summoner net platform i = .ok none) →
      api.get_summoner_by_puuid net platform p = .ok (some s) →
      api.get_summoner_by_filter net platform f = .ok (some s)) ∧
    ((∀ a, f.account_id = some a →
        api.get_summoner_by_account net platform a = .ok none) →
      (∀ n, f.name = some n →
        api.get_summoner_by_name net platform n = .ok none) →
      (∀ i, f.id = some i → api.get_summoner net platform i = .ok none) →
      (∀ p, f.puuid = some p →
        api.get_summoner_by_puuid net platform p = .ok none) →
      api.get_summoner_by_filter net platform f = .ok none) := by
  refine ⟨?_, ?_, ?_, ?_, ?_⟩
  · intro a s ha hhit
    unfold RiotApi.get_summoner_by_filter
    rw [ha, tryChain_hit hhit]
  · intro n s hn hacc hhit
    unfold RiotApi.get_summoner_by_filter
    rw [tryChain_skip hacc, hn, tryChain_hit hhit]
  · intro i s hi hacc hname hhit
    unfold RiotApi.get_summoner_by_filter
    rw [tryChain_skip hacc, tryChain_skip hname, hi, tryChain_hit hhit]
  · intro p s hp hacc hname hid hhit
    unfold RiotApi.get_summoner_by_filter
    rw [tryChain_skip hacc, tryChain_skip hname, tryChain_skip hid, hp,
      tryChain_hit hhit]
  · intro hacc hname hid hpuuid
    unfold RiotApi.get_summoner_by_filter
    rw [tryChain_skip hacc, tryChain_skip hname, tryChain_skip hid,
      tryChain_skip hpuuid]
    rfl

/-- C1 witness: with a filter holding an invalid account id and the valid name
RqndomHax, the account lookup fails at transport level and the chain resolves the
summoner through the display name. -/
theorem summoner_filter_fallback_chain_witness :
    chainFilter.account_id = some "bad-account" ∧
    (RiotApi.new_unchecked "tok").get_summoner_by_account chainNet .EUW1
      "bad-account" = .ok none ∧
    (RiotApi.new_unchecked "tok").get_summoner_by_filter chainNet .EUW1 chainFilter =
      .ok (some summonerRec) :=
  ⟨rfl, rfl,
    (summoner_filter_fallback_chain (RiotApi.new_unchecked "tok") chainNet .EUW1
        chainFilter).2.1 "RqndomHax" summonerRec rfl
      (fun a ha => by cases ha; rfl) (by rfl)⟩

/-- C3 counterexample: against a successfully fetched, well-formed catalog (an
object with an empty data object; an empty runes list), querying the absent name
Xyz makes get_champion panic with the expect message "champion not found" and makes
get_rune panic at target.unwrap(), instead of returning None. -/
theorem absent_name_not_found_counterexample :
    (UtilsApi.mk "v" "l").get_champion emptyCatalogNet "Xyz" =
      .panicked "champion not found" ∧
    (UtilsApi.mk "v" "l").get_rune emptyCatalogNet "Xyz" = .panicked "unwrap" :=
  ⟨rfl, rfl⟩

/-- C3 amended: on a well-formed catalog document, a queried name that is absent
makes get_champion panic at the expect call "champion not found" and makes
get_rune panic at target.unwrap(); absence is a panic, not a None result. -/
theorem absent_name_panics (net : Http) (api : UtilsApi) (name : String)
    (fields dataFields : List (String × Json)) (elems : List Json)
    (hchamp : net (championFullRequest api.version api.language) =
      .body (.obj fields))
    (hdata : objGet fields "data" = some (.obj dataFields))
    (habsent : objGet dataFields name = none)
    (hrunes : net (runesReforgedRequest api.version api.language) =
      .body (.arr elems))
    (hread : ∀ w ∈ elems, (readName w).isSome)
    (hnomatch : ∀ w ∈ elems, (readName w == some name) = false) :
    api.get_champion net name = .panicked "champion not found" ∧
    api.get_rune net name = .panicked "unwrap" := by
  constructor
  · simp only [UtilsApi.get_champion, utils_api.get_champion, fetchJson, hchamp,
      Json.as_object, hdata, habsent]
  · unfold UtilsApi.get_rune utils_api.get_rune fetchJson
    rw [hrunes]
    simp only [Json.as_array]
    rw [runeScan_eq_of_readable name elems none hread]
    have hfind : elems.reverse.find? (fun w => readName w == some name) = none := by
      apply List.find?_eq_none.mpr
      intro w hw
      simp [hnomatch w (List.mem_reverse.mp hw)]
    rw [hfind]
    rfl

/-- C3 witness: the amended theorem applied to the empty well-formed catalogs and
the absent name Xyz. -/
theorem absent_name_panics_witness :
    (UtilsApi.mk "v" "l").get_champion emptyCatalogNet "Xyz" =
      .panicked "champion not found" ∧
    (UtilsApi.mk "v" "l").get_rune emptyCatalogNet "Xyz" = .panicked "unwrap" :=
  absent_name_panics emptyCatalogNet (UtilsApi.mk "v" "l") "Xyz"
    [("data", .obj [])] [] [] rfl rfl rfl rfl (by simp) (by simp)

/-- C4 counterexample: a 2xx response whose body is the valid JSON value null is a
decode (shape) failure, and get_champion_rotations then panics at unwrap instead of
returning the absent result None: decode failures of this kind are not collapsed
into the absent result. -/
theorem error_collapse_counterexample :
    (RiotApi.new_unchecked "t").get_champion_rotations nullBodyNet .NA1 =
      .panicked "unwrap" ∧
    (RiotApi.new_unchecked "t").get_champion_rotations nullBodyNet .NA1 ≠
      .ok none :=
  ⟨rfl, by decide⟩

/-- C4 amended: for every public lookup operation of both clients, a transport
failure (network error or non-2xx status) and a JSON-syntax decode failure are
collapsed into the single absent-result value of the operation (None or the empty
catalog); a well-formed-JSON payload of the wrong shape instead panics. -/
theorem transport_failures_collapse (net : Http) :
    (∀ (api : RiotApi) (platform : Platform),
      (∀ j, net (rotationsRequest api.token platform) ≠ .body j) →
      api.get_champion_rotations net platform = .ok none) ∧
    (∀ (api : RiotApi) (platform : Platform) (id : String),
      (∀ j, net (summonerRequest api.token platform id) ≠ .body j) →
      api.get_summoner net platform id = .ok none) ∧
    (∀ (api : RiotApi) (platform : Platform) (acc : String),
      (∀ j, net (summonerByAccountRequest api.token platform acc) ≠ .body j) →
      api.get_summoner_by_account net platform acc = .ok none) ∧
    (∀ (api : RiotApi) (platform : Platform) (nm : String),
      (∀ j, net (summonerByNameRequest api.token platform nm) ≠ .body j) →
      api.get_summoner_by_name net platform nm = .ok none) ∧
    (∀ (api : RiotApi) (platform : Platform) (pu : String),
      (∀ j, net (summonerByPuuidRequest api.token platform pu) ≠ .body j) →
      api.get_summoner_by_puuid net platform pu = .ok none) ∧
    (∀ api : UtilsApi,
      (∀ j, net (championFullRequest api.version api.language) ≠ .body j) →
      api.get_all_champions net = .ok []) ∧
    (∀ (api : UtilsApi) (nm : String),
      (∀ j, net (championFullRequest api.version api.language) ≠ .body j) →
      api.get_champion net nm = .ok none) ∧
    (∀ api : UtilsApi,
      (∀ j, net (runesReforgedRequest api.version api.language) ≠ .body j) →
      api.get_all_runes net = .ok []) ∧
    (∀ (api : UtilsApi) (nm : String),
      (∀ j, net (runesReforgedRequest api.version api.language) ≠ .body j) →
      api.get_rune net nm = .ok none) := by
  refine ⟨?_, ?_, ?_, ?_, ?_, ?_, ?_, ?_, ?_⟩
  · intro api platform h
    unfold RiotApi.get_champion_rotations riot_api.get_champion_rotations
    rw [fetchJson_err_of_not_body _ _ h]
  · intro api platform id h
    unfold RiotApi.get_summoner riot_api.get_summoner
    rw [fetchJson_err_of_not_body _ _ h]
  · intro api platform acc h
    unfold RiotApi.get_summoner_by_account riot_api.get_summoner_by_account
    rw [fetchJson_err_of_not_body _ _ h]
  · intro api platform nm h
    unfold RiotApi.get_summoner_by_name riot_api.get_summoner_by_name
    rw [fetchJson_err_of_not_body _ _ h]
  · intro api platform pu h
    unfold RiotApi.get_summoner_by_puuid riot_api.get_summoner_by_puuid
    rw [fetchJson_err_of_not_body _ _ h]
  · intro api h
    unfold UtilsApi.get_all_champions utils_api.get_all_champions
    rw [fetchJson_err_of_not_body _ _ h]
  · intro api nm h
    unfold UtilsApi.get_champion utils_api.get_champion
    rw [fetchJson_err_of_not_body _ _ h]
  · intro api h
    unfold UtilsApi.get_all_runes utils_api.get_all_runes
    rw [fetchJson_err_of_not_body _ _ h]
  · intro api nm h
    unfold UtilsApi.get_rune utils_api.get_rune
    rw [fetchJson_err_of_not_body _ _ h]

/-- C4 witness: on a network where every request fails at transport level, all nine
public lookups yield their absent result. -/
theorem transport_failures_collapse_witness :
    (RiotApi.new_unchecked "t").get_champion_rotations
      (fun _ => .transportError) .NA1 = .ok none ∧
    (RiotApi.new_unchecked "t").get_summoner (fun _ => .transportError) .NA1 "i" =
      .ok none ∧
    (RiotApi.new_unchecked "t").get_summoner_by_account
      (fun _ => .transportError) .NA1 "a" = .ok none ∧
    (RiotApi.new_unchecked "t").get_summoner_by_name
      (fun _ => .transportError) .NA1 "n" = .ok none ∧
    (RiotApi.new_unchecked "t").get_summoner_by_puuid
      (fun _ => .transportError) .NA1 "p" = .ok none ∧
    (UtilsApi.mk "v" "l").get_all_champions (fun _ => .transportError) = .ok [] ∧
    (UtilsApi.mk "v" "l").get_champion (fun _ => .transportError) "n" = .ok none ∧
    (UtilsApi.mk "v" "l").get_all_runes (fun _ => .transportError) = .ok [] ∧
    (UtilsApi.mk "v" "l").get_rune (fun _ => .transportError) "n" = .ok none :=
  ⟨(transport_failures_collapse _).1 _ _ (fun _ h => FetchResult.noConfusion h),
   (transport_failures_collapse _).2.1 _ _ _ (fun _ h => FetchResult.noConfusion h),
   (transport_failures_collapse _).2.2.1 _ _ _
     (fun _ h => FetchResult.noConfusion h),
   (transport_failures_collapse _).2.2.2.1 _ _ _
     (fun _ h => FetchResult.noConfusion h),
   (transport_failures_collapse _).2.2.2.2.1 _ _ _
     (fun _ h => FetchResult.noConfusion h),
   (transport_failures_collapse _).2.2.2.2.2.1 _
     (fun _ h => FetchResult.noConfusion h),
   (transport_failures_collapse _).2.2.2.2.2.2.1 _ _
     (fun _ h => FetchResult.noConfusion h),
   (transport_failures_collapse _).2.2.2.2.2.2.2.1 _
     (fun _ h => FetchResult.noConfusion h),
   (transport_failures_collapse _).2.2.2.2.2.2.2.2 _ _
     (fun _ h => FetchResult.noConfusion h)⟩

/-- The catalog loop never produces a propagated Err: it either returns the full
decoded list or panics at the first bad entry. -/
theorem decodeEach_ne_err {α : Type} {f : Json → Option α} :
    ∀ vals : List Json, decodeEach f vals ≠ .err := by
  intro vals
  induction vals with
  | nil => intro h; cases h
  | cons w ws ih =>
    intro h
    unfold decodeEach at h
    cases hfw : f w with
    | none => rw [hfw] at h; cases h
    | some a =>
      rw [hfw] at h
      cases hrec : decodeEach f ws with
      | ok rest => rw [hrec] at h; cases h
      | err => exact ih hrec
      | panicked m => rw [hrec] at h; cases h

/-- C5: if any single entry of a fetched catalog document fails to deserialize,
the whole call fails by panicking at the unwrap of that entry; it never returns a
catalog (so no catalog that drops the entry, and no partially populated record,
is ever produced). -/
theorem catalog_decode_fail_fast (net : Http) :
    (∀ (api : UtilsApi) (fields dataFields : List (String × Json)) (v : Json),
      net (championFullRequest api.version api.language) = .body (.obj fields) →
      objGet fields "data" = some (.obj dataFields) →
      v ∈ objValues dataFields → championFromJson v = none →
      api.get_all_champions net = .panicked "unwrap" ∧
      ∀ cs, api.get_all_champions net ≠ .ok cs) ∧
    (∀ (api : UtilsApi) (elems : List Json) (v : Json),
      net (runesReforgedRequest api.version api.language) = .body (.arr elems) →
      v ∈ elems → runeFromJson v = none →
      api.get_all_runes net = .panicked "unwrap" ∧
      ∀ rs, api.get_all_runes net ≠ .ok rs) := by
  constructor
  · intro api fields dataFields v hnet hdata hv hbad
    have hres : api.get_all_champions net = .panicked "unwrap" := by
      simp only [UtilsApi.get_all_champions, utils_api.get_all_champions, fetchJson,
        hnet, Json.as_object, hdata, decodeEach_panicked_of_bad hv hbad]
    exact ⟨hres, fun cs h => by rw [hres] at h; cases h⟩
  · intro api elems v hnet hv hbad
    have hres : api.get_all_runes net = .panicked "unwrap" := by
      simp only [UtilsApi.get_all_runes, utils_api.get_all_runes, fetchJson, hnet,
        Json.as_array, decodeEach_panicked_of_bad hv hbad]
    exact ⟨hres, fun rs h => by rw [hres] at h; cases h⟩

/-- C5 witness: a catalog whose single champion entry is null and a runes list
whose single element is null; both full-catalog fetches panic and neither returns
an Ok catalog. -/
theorem catalog_decode_fail_fast_witness :
    (UtilsApi.mk "v" "l").get_all_champions badEntryNet = .panicked "unwrap" ∧
    (UtilsApi.mk "v" "l").get_all_runes badEntryNet = .panicked "unwrap" :=
  ⟨((catalog_decode_fail_fast badEntryNet).1 (UtilsApi.mk "v" "l")
      [("data", .obj [("A", .null)])] [("A", .null)] .null rfl rfl
      (by simp [objValues]) rfl).1,
   ((catalog_decode_fail_fast badEntryNet).2 (UtilsApi.mk "v" "l")
      [.null] .null rfl (by simp) rfl).1⟩

/-- C9: when the fetched catalog document has an entry under the queried name and
the full-catalog call succeeds, the single-item lookup returns exactly the record
deserialized from that entry, and that record is a member of the returned
catalog. -/
theorem get_champion_agrees_with_catalog (net : Http) (api : UtilsApi)
    (name : String) (fields dataFields : List (String × Json)) (v : Json)
    (cs : List Champion)
    (hnet : net (championFullRequest api.version api.language) = .body (.obj fields))
    (hdata : objGet fields "data" = some (.obj dataFields))
    (hname : objGet dataFields name = some v)
    (hall : api.get_all_champions net = .ok cs) :
    ∃ c, championFromJson v = some c ∧
      api.get_champion net name = .ok (some c) ∧ c ∈ cs := by
  have hdec : decodeEach championFromJson (objValues dataFields) = .ok cs := by
    simp only [UtilsApi.get_all_champions, utils_api.get_all_champions, fetchJson,
      hnet, Json.as_object, hdata] at hall
    cases hd : decodeEach championFromJson (objValues dataFields) with
    | ok cs2 => rw [hd] at hall; cases hall; rfl
    | err => exact absurd hd (decodeEach_ne_err _)
    | panicked m => rw [hd] at hall; cases hall
  obtain ⟨c, hc, hcmem⟩ := decodeEach_ok_mem hdec (mem_objValues_of_objGet hname)
  refine ⟨c, hc, ?_, hcmem⟩
  simp only [UtilsApi.get_champion, utils_api.get_champion, fetchJson, hnet,
    Json.as_object, hdata, hname, hc]

/-- C9 witness: a one-champion catalog; the single-item lookup for Samira returns
the record the catalog holds. -/
theorem get_champion_agrees_with_catalog_witness :
    ∃ c, championFromJson samiraDoc = some c ∧
      (UtilsApi.mk "12.12.1" "en_US").get_champion champNet "Samira" =
        .ok (some c) ∧ c ∈ [samiraRec] :=
  get_champion_agrees_with_catalog champNet (UtilsApi.mk "12.12.1" "en_US")
    "Samira"
    [("type", .str "champion"), ("format", .str "standAloneComplex"),
      ("version", .str "12.12.1"), ("data", .obj [("Samira", samiraDoc)])]
    [("Samira", samiraDoc)] samiraDoc [samiraRec] rfl rfl rfl (by rfl)

/-- Inversion of a successful get_latest_version: the versions manifest was
fetched as a JSON list whose first entry is the string returned. -/
theorem get_latest_version_ok_inv {net : Http} {v : String}
    (h : utils_api.get_latest_version net = .ok v) :
    ∃ rest, net versionsRequest = .body (.arr (.str v :: rest)) := by
  unfold utils_api.get_latest_version fetchJson at h
  cases hn : net versionsRequest with
  | transportError => rw [hn] at h; cases h
  | invalidJson => rw [hn] at h; cases h
  | body j =>
    rw [hn] at h
    cases j with
    | arr l =>
      cases l with
      | nil => simp [Json.as_array] at h
      | cons hv rest =>
        cases hv with
        | str s =>
          simp [Json.as_array, Json.as_str] at h
          exact ⟨rest, by rw [h]⟩
        | null => simp [Json.as_array, Json.as_str] at h
        | bool b => simp [Json.as_array, Json.as_str] at h
        | num q => simp [Json.as_array, Json.as_str] at h
        | arr l2 => simp [Json.as_array, Json.as_str] at h
        | obj o => simp [Json.as_array, Json.as_str] at h
    | null => simp [Json.as_array] at h
    | bool b => simp [Json.as_array] at h
    | num q => simp [Json.as_array] at h
    | str s => simp [Json.as_array] at h
    | obj o => simp [Json.as_array] at h

/-- C7: a successful UtilsApi::latest stores as its version exactly the
first-listed entry of the fetched versions.json manifest; and UtilsApi::new with a
version string absent from the fetched manifest fails with None (provided the
language probe does not panic, which it cannot on a well-formed or failing
languages manifest). -/
theorem latest_first_entry_and_absent_version_fails :
    (∀ (net : Http) (language : String) (api : UtilsApi),
      UtilsApi.latest net language = .ok (some api) →
      ∃ rest, net versionsRequest = .body (.arr (.str api.version :: rest))) ∧
    (∀ (net : Http) (version language : String) (elems : List Json),
      net versionsRequest = .body (.arr elems) →
      (∀ w ∈ elems, jsonIsString version w = false) →
      (∀ m, utils_api.is_language_available net language ≠ .panicked m) →
      UtilsApi.new net version language = .ok none) := by
  constructor
  · intro net language api h
    unfold UtilsApi.latest at h
    cases h1 : utils_api.is_language_available net language with
    | panicked m => rw [h1] at h; cases h
    | err =>
      rw [h1] at h
      cases h2 : utils_api.get_latest_version net with
      | panicked m => rw [h2] at h; cases h
      | err => rw [h2] at h; simp at h
      | ok v => rw [h2] at h; simp at h
    | ok b =>
      rw [h1] at h
      cases h2 : utils_api.get_latest_version net with
      | panicked m => rw [h2] at h; cases h
      | err => rw [h2] at h; simp at h
      | ok v =>
        rw [h2] at h
        cases b with
        | false => simp at h
        | true =>
          simp only [Outcome.ok.injEq, Option.some.injEq] at h
          obtain ⟨rest, hrest⟩ := get_latest_version_ok_inv h2
          refine ⟨rest, ?_⟩
          rw [hrest, ← h]
  · intro net version language elems h1 hall hnp
    have hv : utils_api.is_version_available net version = .ok false := by
      unfold utils_api.is_version_available fetchJson
      rw [h1]
      simp only [Json.as_array, Outcome.ok.injEq]
      exact List.any_eq_false.mpr (fun x hx => by simp [hall x hx])
    unfold UtilsApi.new
    rw [hv]
    cases h2 : utils_api.is_language_available net language with
    | panicked m => exact absurd h2 (hnp m)
    | ok b => cases b <;> rfl
    | err => rfl

/-- C7 witness: on the manifest network, latest resolves to 12.12.1 (the first
manifest entry) and constructing with the absent version 9.9.9 fails. -/
theorem latest_first_entry_witness :
    (∃ rest, manifestNet versionsRequest =
      .body (.arr (.str (UtilsApi.mk "12.12.1" "en_US").version :: rest))) ∧
    UtilsApi.new manifestNet "9.9.9" "en_US" = .ok none :=
  ⟨latest_first_entry_and_absent_version_fails.1 manifestNet "en_US"
      (UtilsApi.mk "12.12.1" "en_US") (by rfl),
   latest_first_entry_and_absent_version_fails.2 manifestNet "9.9.9" "en_US"
      [.str "12.12.1", .str "12.12.0"] rfl (by decide)
      (fun m hm => by
        rw [show utils_api.is_language_available manifestNet "en_US" = .ok true
          from rfl] at hm
        exact Outcome.noConfusion hm)⟩
